import Mathlib

/-!
Verification of the Google Pay payment flow of
`src/packages/manager/src/features/Billing/Providers/GooglePay.ts`.

The TypeScript module orchestrates external collaborators (the braintree SDK,
the Google Pay client, two backend endpoints, a query cache, an exception
reporter and two caller-supplied callbacks).  We model each run as a trace of
events (the observable calls to those collaborators) computed from an
environment that fixes the outcome of every external call.  JavaScript promise
rejections are modelled with `Except JsError`; a rejected value carries an
optional `statusCode` field, matching the `error.statusCode === 'CANCELED'`
inspection in the source.
-/

namespace GooglePay

/-- Configuration read from `src/constants` (`GPAY_MERCHANT_ID`,
`GPAY_CLIENT_ENV`).  `GPAY_MERCHANT_ID` is a string whose JavaScript
truthiness (`Boolean(GPAY_MERCHANT_ID)`) is non-emptiness. -/
structure Config where
  GPAY_MERCHANT_ID : String
  GPAY_CLIENT_ENV : String
deriving Repr, DecidableEq

/-- A JavaScript rejection value: an optional `statusCode` field (inspected by
`gPay`'s catch block) and the display form used when the value is passed to
`setMessage`. -/
structure JsError where
  statusCode : Option String
  message : String
deriving Repr, DecidableEq

/-- A warning object forwarded untouched from a backend response to
`setMessage` (`APIWarning` in the source). -/
structure APIWarning where
  title : String
  detail : String
deriving Repr, DecidableEq

/-- Outcomes of all external asynchronous calls made during one run:
the braintree `createPaymentDataRequest`, the Google Pay client's
`isReadyToPay` (its JavaScript truthiness) and `loadPaymentData`, the
braintree `parseResponse` (yielding the real nonce), and the two backend
endpoints `makePayment` (yielding `response.warnings`) and
`addPaymentMethod`. -/
structure ProviderEnv where
  createPaymentDataRequest : Except JsError Unit
  isReadyToPay : Except JsError Bool
  loadPaymentData : Except JsError Unit
  parseResponse : Except JsError String
  makePayment : Except JsError (List APIWarning)
  addPaymentMethod : Except JsError Unit
deriving Repr

/-- Observable events of one run, in order: calls to the provider SDK, the
exception reporter, the caller callbacks, the query cache and the backend. -/
inductive Event where
  | clientCreate
  | googlePaymentCreate
  | createPaymentDataRequest
  | isReadyToPayCall
  | loadPaymentData
  | parseResponse
  | reportException (message : String)
  | setProcessing (processing : Bool)
  | setMessage (message : String) (variant : String) (warnings : Option (List APIWarning))
  | invalidateQueries (key : String)
  | makePayment (nonce : String) (usd : Option String)
  | addPaymentMethod (nonce : String) (is_default : Bool)
deriving Repr, DecidableEq

/-- The caller-supplied `transactionInfo`: only `totalPrice` is consumed by
this module (`totalPrice?: string`, hence an `Option`). -/
structure TransactionInfo where
  totalPrice : Option String
deriving Repr, DecidableEq

/-- The `action` discriminator of `gPay`. -/
inductive Action where
  | oneTimePayment
  | addRecurringPayment
deriving Repr, DecidableEq

/-- JavaScript template-literal interpolation of a possibly-undefined string
(`` `$\x7btransactionInfo.totalPrice\x7d` `` renders `undefined` when the field
is absent). -/
def jsTemplateStr : Option String → String
  | some s => s
  | none => "undefined"

/-- Modelled from the spec: `src/queries/accountBilling.ts` is not part of the
source snapshot; the spec fixes the invalidated key `` `$\x7baccountBillingKey\x7d-payments` ``
to be "billing-payments", so the imported `queryKey` stem is "billing". -/
def accountBillingKey : String := "billing"

/-- Modelled from the spec: `src/queries/accountPayment.ts` is not part of the
source snapshot; the spec fixes the invalidated key `` `$\x7baccountPaymentKey\x7d-all` ``
to be "payment-methods-all", so the imported `queryKey` stem is "payment-methods". -/
def accountPaymentKey : String := "payment-methods"

/-- Result of `onPaymentAuthorized`: the object `{transactionState: 'SUCCESS'}`
resolved to the provider. -/
structure AuthorizationResult where
  transactionState : String
deriving Repr, DecidableEq

/-- `onPaymentAuthorized` (lines 21–27): resolves `{transactionState: 'SUCCESS'}`
for every `paymentData` value (the payment data, opaque here, is never
inspected). -/
def onPaymentAuthorized (paymentData : String) : Except JsError AuthorizationResult :=
  Except.ok { transactionState := "SUCCESS" }

/-- A successful `initGooglePaymentInstance` assigns the created instance to
the module-level slot `googlePaymentInstance`; we track only presence. -/
def ModuleState : Type := Option Unit

/-- Outcomes of the two awaited calls of `initGooglePaymentInstance`:
`braintree.client.create` and `braintree.googlePayment.create`. -/
structure InitEnv where
  clientCreate : Except JsError Unit
  googlePaymentCreate : Except JsError Unit
deriving Repr

/-- Return value of `initGooglePaymentInstance`. -/
structure InitResult where
  error : Bool
deriving Repr, DecidableEq

/-- `initGooglePaymentInstance` (lines 29–49): create the braintree client,
then the Google Payment instance; a failure of either awaited call is caught,
reported, and yields `{error: true}` with the module slot untouched; success
stores the instance and yields `{error: false}`. -/
def initGooglePaymentInstance (env : InitEnv) (st : ModuleState) :
    List Event × ModuleState × InitResult :=
  match env.clientCreate with
  | Except.error _ =>
      ([Event.clientCreate, Event.reportException "Error initializing Google Pay."],
       st, { error := true })
  | Except.ok _ =>
      match env.googlePaymentCreate with
      | Except.error _ =>
          ([Event.clientCreate, Event.googlePaymentCreate,
            Event.reportException "Error initializing Google Pay."],
           st, { error := true })
      | Except.ok _ =>
          ([Event.clientCreate, Event.googlePaymentCreate],
           some (), { error := false })

/-- The nonce selection of lines 93–98: `Boolean(GPAY_MERCHANT_ID) &&
GPAY_CLIENT_ENV === 'PRODUCTION'` chooses the real nonce, anything else the
sandbox literal `'fake-android-pay-nonce'`. -/
def selectNonce (cfg : Config) (realNonce : String) : String :=
  if cfg.GPAY_MERCHANT_ID ≠ "" ∧ cfg.GPAY_CLIENT_ENV = "PRODUCTION" then realNonce
  else "fake-android-pay-nonce"

/-- The `googlePaymentInstance.createPaymentDataRequest` step: when the module
slot was never assigned, the property access throws synchronously inside the
`try` (modelled as an error); otherwise the call's outcome comes from the
environment. -/
def createPaymentDataRequestStep (inst : ModuleState) (env : ProviderEnv) :
    Except JsError Unit :=
  match inst with
  | none => Except.error { statusCode := none, message := "googlePaymentInstance is undefined" }
  | some _ => env.createPaymentDataRequest

/-- `tokenizePaymentDataRequest` (lines 51–100): build the payment data
request (failures caught, reported and re-rejected as a string), query
`isReadyToPay` (falsy result rejects with the device-support string), load the
payment sheet, parse the response, and select between the real nonce and the
sandbox literal from the configuration. -/
def tokenizePaymentDataRequest (cfg : Config) (inst : ModuleState) (env : ProviderEnv) :
    List Event × Except JsError String :=
  match createPaymentDataRequestStep inst env with
  | Except.error _ =>
      ([Event.createPaymentDataRequest,
        Event.reportException "Unable to open Google Pay."],
       Except.error { statusCode := none, message := "Unable to open Google Pay." })
  | Except.ok _ =>
      match env.isReadyToPay with
      | Except.error e =>
          ([Event.createPaymentDataRequest, Event.isReadyToPayCall], Except.error e)
      | Except.ok ready =>
          if ready = false then
            ([Event.createPaymentDataRequest, Event.isReadyToPayCall],
             Except.error { statusCode := none,
                            message := "Your device does not support Google Pay." })
          else
            match env.loadPaymentData with
            | Except.error e =>
                ([Event.createPaymentDataRequest, Event.isReadyToPayCall,
                  Event.loadPaymentData], Except.error e)
            | Except.ok _ =>
                match env.parseResponse with
                | Except.error e =>
                    ([Event.createPaymentDataRequest, Event.isReadyToPayCall,
                      Event.loadPaymentData, Event.parseResponse], Except.error e)
                | Except.ok realNonce =>
                    ([Event.createPaymentDataRequest, Event.isReadyToPayCall,
                      Event.loadPaymentData, Event.parseResponse],
                     Except.ok (selectNonce cfg realNonce))

/-- `makeOneTimePayment` (lines 114–132): call the charge endpoint; on success
invalidate the billing-payments key and report success with the endpoint's
warnings; on failure report the exception and show the generic error.  The
handler catches its own errors and never rejects. -/
def makeOneTimePayment (env : ProviderEnv) (transactionInfo : TransactionInfo)
    (nonce : String) : List Event :=
  match env.makePayment with
  | Except.ok warnings =>
      [Event.makePayment nonce transactionInfo.totalPrice,
       Event.invalidateQueries (accountBillingKey ++ "-payments"),
       Event.setMessage
         ("Payment for $" ++ jsTemplateStr transactionInfo.totalPrice ++
           " successfully submitted with Google Pay")
         "success" (some warnings)]
  | Except.error _ =>
      [Event.makePayment nonce transactionInfo.totalPrice,
       Event.reportException "Unable to complete Google Pay payment",
       Event.setMessage "Unable to complete Google Pay payment" "error" none]

/-- `addRecurringPayment` (lines 134–150): register the nonce as the default
stored payment method; on success invalidate the payment-methods key and
report success; on failure report the exception and show the generic error.
The handler catches its own errors and never rejects. -/
def addRecurringPayment (env : ProviderEnv) (nonce : String) : List Event :=
  match env.addPaymentMethod with
  | Except.ok _ =>
      [Event.addPaymentMethod nonce true,
       Event.invalidateQueries (accountPaymentKey ++ "-all"),
       Event.setMessage "Successfully added Google Pay" "success" none]
  | Except.error _ =>
      [Event.addPaymentMethod nonce true,
       Event.reportException "Unable to add payment method",
       Event.setMessage "Unable to add payment method" "error" none]

/-- The action dispatch of lines 155–159: one-time payments go to
`makeOneTimePayment`, anything else to `addRecurringPayment`. -/
def dispatchSettlement (env : ProviderEnv) (action : Action)
    (transactionInfo : TransactionInfo) (nonce : String) : List Event :=
  match action with
  | Action.oneTimePayment => makeOneTimePayment env transactionInfo nonce
  | Action.addRecurringPayment => addRecurringPayment env nonce

/-- `gPay` (lines 102–168): tokenize, then `setProcessing(true)`, dispatch on
the action, `setProcessing(false)`.  A rejection from tokenization is caught:
a `CANCELED` status returns silently, anything else is passed to
`setMessage` with error severity. -/
def gPay (cfg : Config) (inst : ModuleState) (env : ProviderEnv)
    (action : Action) (transactionInfo : TransactionInfo) : List Event :=
  match (tokenizePaymentDataRequest cfg inst env).2 with
  | Except.ok nonce =>
      (tokenizePaymentDataRequest cfg inst env).1 ++ [Event.setProcessing true] ++
        dispatchSettlement env action transactionInfo nonce ++
      [Event.setProcessing false]
  | Except.error e =>
      if e.statusCode = some "CANCELED" then (tokenizePaymentDataRequest cfg inst env).1
      else (tokenizePaymentDataRequest cfg inst env).1 ++
        [Event.setMessage e.message "error" none]

/-- Number of events of a trace satisfying `p`. -/
def countEvents (p : Event → Bool) (tr : List Event) : Nat :=
  (tr.filter p).length

/-- Predicate: the event is any call to `setMessage`. -/
def isSetMessage : Event → Bool
  | Event.setMessage _ _ _ => true
  | _ => false

/-- Predicate: the event is a `setMessage` call with error severity. -/
def isErrorMessage : Event → Bool
  | Event.setMessage _ v _ => v == "error"
  | _ => false

/-- Predicate: the event is any cache invalidation. -/
def isInvalidate : Event → Bool
  | Event.invalidateQueries _ => true
  | _ => false

/-- Predicate: the event invalidates the given cache key. -/
def isInvalidateKey (key : String) : Event → Bool
  | Event.invalidateQueries k => k == key
  | _ => false

/-- Predicate: the event is a backend settlement call (`makePayment` or
`addPaymentMethod`). -/
def isBackendCall : Event → Bool
  | Event.makePayment _ _ => true
  | Event.addPaymentMethod _ _ => true
  | _ => false

/-- Predicate: the event is a call to `setProcessing`. -/
def isSetProcessing : Event → Bool
  | Event.setProcessing _ => true
  | _ => false

/-- Predicate: the event requests or parses a nonce (`loadPaymentData` or
`parseResponse`). -/
def isNonceRequest : Event → Bool
  | Event.loadPaymentData => true
  | Event.parseResponse => true
  | _ => false

theorem countEvents_append (p : Event → Bool) (a b : List Event) :
    countEvents p (a ++ b) = countEvents p a + countEvents p b := by
  simp [countEvents, List.filter_append]

/-- A tokenization trace only touches the provider and the exception reporter:
it never calls `setMessage`, the cache, the backend or `setProcessing`. -/
theorem tokenize_trace_pure (cfg : Config) (inst : ModuleState) (env : ProviderEnv) :
    countEvents isSetMessage (tokenizePaymentDataRequest cfg inst env).1 = 0 ∧
    countEvents isInvalidate (tokenizePaymentDataRequest cfg inst env).1 = 0 ∧
    countEvents isBackendCall (tokenizePaymentDataRequest cfg inst env).1 = 0 ∧
    countEvents isSetProcessing (tokenizePaymentDataRequest cfg inst env).1 = 0 := by
  unfold tokenizePaymentDataRequest
  cases createPaymentDataRequestStep inst env with
  | error e =>
      simp [countEvents, isSetMessage, isInvalidate, isBackendCall, isSetProcessing]
  | ok u =>
      cases env.isReadyToPay with
      | error e =>
          simp [countEvents, isSetMessage, isInvalidate, isBackendCall, isSetProcessing]
      | ok ready =>
          cases ready with
          | false =>
              simp [countEvents, isSetMessage, isInvalidate, isBackendCall, isSetProcessing]
          | true =>
              cases env.loadPaymentData with
              | error e =>
                  simp [countEvents, isSetMessage, isInvalidate, isBackendCall,
                        isSetProcessing]
              | ok u2 =>
                  cases env.parseResponse with
                  | error e =>
                      simp [countEvents, isSetMessage, isInvalidate, isBackendCall,
                            isSetProcessing]
                  | ok realNonce =>
                      simp [countEvents, isSetMessage, isInvalidate, isBackendCall,
                            isSetProcessing]

/-- A settlement dispatch makes exactly one backend call and never touches
`setProcessing`. -/
theorem dispatch_trace_events (env : ProviderEnv) (action : Action)
    (ti : TransactionInfo) (nonce : String) :
    countEvents isSetProcessing (dispatchSettlement env action ti nonce) = 0 ∧
    countEvents isBackendCall (dispatchSettlement env action ti nonce) = 1 := by
  cases action with
  | oneTimePayment =>
      unfold dispatchSettlement makeOneTimePayment
      cases env.makePayment with
      | error e => simp [countEvents, isSetProcessing, isBackendCall]
      | ok w => simp [countEvents, isSetProcessing, isBackendCall]
  | addRecurringPayment =>
      unfold dispatchSettlement addRecurringPayment
      cases env.addPaymentMethod with
      | error e => simp [countEvents, isSetProcessing, isBackendCall]
      | ok u => simp [countEvents, isSetProcessing, isBackendCall]

/-- An environment in which every provider and backend call succeeds. -/
def envAllOk : ProviderEnv :=
  { createPaymentDataRequest := Except.ok ()
    isReadyToPay := Except.ok true
    loadPaymentData := Except.ok ()
    parseResponse := Except.ok "real-nonce-123"
    makePayment := Except.ok [{ title := "warning-title", detail := "warning-detail" }]
    addPaymentMethod := Except.ok () }

/-- An environment whose readiness check reports an unsupported device. -/
def envNotReady : ProviderEnv :=
  { envAllOk with isReadyToPay := Except.ok false }

/-- An environment in which the user dismisses the payment sheet:
`loadPaymentData` rejects with status code `CANCELED`. -/
def envCanceled : ProviderEnv :=
  { envAllOk with
      loadPaymentData :=
        Except.error { statusCode := some "CANCELED"
                       message := "User closed the Payment Request UI." } }

/-- An environment in which the backend charge endpoint fails. -/
def envChargeFails : ProviderEnv :=
  { envAllOk with
      makePayment :=
        Except.error { statusCode := none, message := "Internal server error" } }

/-- An environment in which the backend payment-method registration fails. -/
def envAddFails : ProviderEnv :=
  { envAllOk with
      addPaymentMethod :=
        Except.error { statusCode := none, message := "Internal server error" } }

/-- A production configuration with a merchant id. -/
def cfgProd : Config :=
  { GPAY_MERCHANT_ID := "merchant-1", GPAY_CLIENT_ENV := "PRODUCTION" }

/-- A sandbox configuration: no merchant id, test environment. -/
def cfgSandbox : Config :=
  { GPAY_MERCHANT_ID := "", GPAY_CLIENT_ENV := "TEST" }

/-- C9: for every paymentData value passed to `onPaymentAuthorized`, the
callback resolves with `{transactionState: 'SUCCESS'}` — it never rejects and
never inspects the payment data. -/
theorem onPaymentAuthorized_always_success (paymentData : String) :
    onPaymentAuthorized paymentData = Except.ok { transactionState := "SUCCESS" } :=
  rfl

/-- C1: when the whole provider flow succeeds, the tokenization step returns
the real nonce parsed from the response exactly when the merchant id is
non-empty and the client environment is `"PRODUCTION"`; every other
combination yields the sandbox literal `"fake-android-pay-nonce"`. -/
theorem nonce_selection (cfg : Config) (env : ProviderEnv) (realNonce : String)
    (hcreate : env.createPaymentDataRequest = Except.ok ())
    (hready : env.isReadyToPay = Except.ok true)
    (hload : env.loadPaymentData = Except.ok ())
    (hparse : env.parseResponse = Except.ok realNonce) :
    ((cfg.GPAY_MERCHANT_ID ≠ "" ∧ cfg.GPAY_CLIENT_ENV = "PRODUCTION") →
      (tokenizePaymentDataRequest cfg (some ()) env).2 = Except.ok realNonce) ∧
    (¬(cfg.GPAY_MERCHANT_ID ≠ "" ∧ cfg.GPAY_CLIENT_ENV = "PRODUCTION") →
      (tokenizePaymentDataRequest cfg (some ()) env).2 =
        Except.ok "fake-android-pay-nonce") := by
  constructor <;> intro h <;>
    simp [tokenizePaymentDataRequest, createPaymentDataRequestStep, selectNonce,
          hcreate, hready, hload, hparse, h]

theorem nonce_selection_witness :
    (tokenizePaymentDataRequest cfgProd (some ()) envAllOk).2 =
        Except.ok "real-nonce-123" ∧
    (tokenizePaymentDataRequest cfgSandbox (some ()) envAllOk).2 =
        Except.ok "fake-android-pay-nonce" :=
  ⟨(nonce_selection cfgProd envAllOk "real-nonce-123" rfl rfl rfl rfl).1
      (by exact ⟨by decide, rfl⟩),
   (nonce_selection cfgSandbox envAllOk "real-nonce-123" rfl rfl rfl rfl).2
      (by intro h; exact h.1 rfl)⟩

/-- C2: when the readiness check reports an unsupported device, the whole
`gPay` run consists of the request build and the readiness query followed by
the device-not-supported error message: the payment sheet is never loaded, the
response never parsed, no backend call is made and the flow ends without
retrying. -/
theorem not_ready_no_nonce_no_backend (cfg : Config) (env : ProviderEnv)
    (action : Action) (ti : TransactionInfo)
    (hcreate : env.createPaymentDataRequest = Except.ok ())
    (hready : env.isReadyToPay = Except.ok false) :
    gPay cfg (some ()) env action ti =
      [Event.createPaymentDataRequest, Event.isReadyToPayCall,
       Event.setMessage "Your device does not support Google Pay." "error" none] ∧
    countEvents isNonceRequest (gPay cfg (some ()) env action ti) = 0 ∧
    countEvents isBackendCall (gPay cfg (some ()) env action ti) = 0 := by
  have h : gPay cfg (some ()) env action ti =
      [Event.createPaymentDataRequest, Event.isReadyToPayCall,
       Event.setMessage "Your device does not support Google Pay." "error" none] := by
    simp [gPay, tokenizePaymentDataRequest, createPaymentDataRequestStep, hcreate, hready]
  refine ⟨h, ?_, ?_⟩ <;> rw [h] <;> rfl

theorem not_ready_no_nonce_no_backend_witness :
    gPay cfgProd (some ()) envNotReady Action.oneTimePayment { totalPrice := some "10.00" } =
      [Event.createPaymentDataRequest, Event.isReadyToPayCall,
       Event.setMessage "Your device does not support Google Pay." "error" none] ∧
    countEvents isNonceRequest
      (gPay cfgProd (some ()) envNotReady Action.oneTimePayment
        { totalPrice := some "10.00" }) = 0 ∧
    countEvents isBackendCall
      (gPay cfgProd (some ()) envNotReady Action.oneTimePayment
        { totalPrice := some "10.00" }) = 0 :=
  not_ready_no_nonce_no_backend cfgProd envNotReady Action.oneTimePayment
    { totalPrice := some "10.00" } rfl rfl

/-- C3: when tokenization rejects with status code `CANCELED` (the user
dismissed the payment sheet), `gPay` exits silently: no `setMessage` call, no
cache invalidation and no backend settlement call appear in the trace. -/
theorem canceled_silent (cfg : Config) (inst : ModuleState) (env : ProviderEnv)
    (action : Action) (ti : TransactionInfo) (e : JsError)
    (htok : (tokenizePaymentDataRequest cfg inst env).2 = Except.error e)
    (hcanceled : e.statusCode = some "CANCELED") :
    countEvents isSetMessage (gPay cfg inst env action ti) = 0 ∧
    countEvents isInvalidate (gPay cfg inst env action ti) = 0 ∧
    countEvents isBackendCall (gPay cfg inst env action ti) = 0 := by
  have hg : gPay cfg inst env action ti = (tokenizePaymentDataRequest cfg inst env).1 := by
    simp [gPay, htok, hcanceled]
  obtain ⟨h1, h2, h3, _⟩ := tokenize_trace_pure cfg inst env
  exact ⟨hg ▸ h1, hg ▸ h2, hg ▸ h3⟩

theorem canceled_silent_witness :
    countEvents isSetMessage
      (gPay cfgProd (some ()) envCanceled Action.oneTimePayment
        { totalPrice := some "10.00" }) = 0 ∧
    countEvents isInvalidate
      (gPay cfgProd (some ()) envCanceled Action.oneTimePayment
        { totalPrice := some "10.00" }) = 0 ∧
    countEvents isBackendCall
      (gPay cfgProd (some ()) envCanceled Action.oneTimePayment
        { totalPrice := some "10.00" }) = 0 :=
  canceled_silent cfgProd (some ()) envCanceled Action.oneTimePayment
    { totalPrice := some "10.00" }
    { statusCode := some "CANCELED", message := "User closed the Payment Request UI." }
    rfl rfl

/-- C4: on a successful one-time payment the key "billing-payments" is
invalidated exactly once, and only after the charge call: the first six events
(through the `makePayment` call) contain no invalidation, the sixth event is
the charge itself, and the invalidation follows it immediately.  When the
charge fails, nothing is invalidated. -/
theorem one_time_invalidation_after_charge (cfg : Config) (ti : TransactionInfo)
    (envOk envErr : ProviderEnv) (realNonce realNonce2 : String)
    (w : List APIWarning) (e : JsError)
    (hc1 : envOk.createPaymentDataRequest = Except.ok ())
    (hr1 : envOk.isReadyToPay = Except.ok true)
    (hl1 : envOk.loadPaymentData = Except.ok ())
    (hp1 : envOk.parseResponse = Except.ok realNonce)
    (hm1 : envOk.makePayment = Except.ok w)
    (hc2 : envErr.createPaymentDataRequest = Except.ok ())
    (hr2 : envErr.isReadyToPay = Except.ok true)
    (hl2 : envErr.loadPaymentData = Except.ok ())
    (hp2 : envErr.parseResponse = Except.ok realNonce2)
    (hm2 : envErr.makePayment = Except.error e) :
    gPay cfg (some ()) envOk Action.oneTimePayment ti =
      [Event.createPaymentDataRequest, Event.isReadyToPayCall, Event.loadPaymentData,
       Event.parseResponse, Event.setProcessing true,
       Event.makePayment (selectNonce cfg realNonce) ti.totalPrice,
       Event.invalidateQueries "billing-payments",
       Event.setMessage
         ("Payment for $" ++ jsTemplateStr ti.totalPrice ++
           " successfully submitted with Google Pay") "success" (some w),
       Event.setProcessing false] ∧
    countEvents (isInvalidateKey "billing-payments")
      (gPay cfg (some ()) envOk Action.oneTimePayment ti) = 1 ∧
    countEvents (isInvalidateKey "billing-payments")
      ((gPay cfg (some ()) envOk Action.oneTimePayment ti).take 6) = 0 ∧
    (gPay cfg (some ()) envOk Action.oneTimePayment ti).get? 5 =
      some (Event.makePayment (selectNonce cfg realNonce) ti.totalPrice) ∧
    countEvents isInvalidate (gPay cfg (some ()) envErr Action.oneTimePayment ti) = 0 := by
  have hkey : accountBillingKey ++ "-payments" = "billing-payments" := rfl
  have h1 : gPay cfg (some ()) envOk Action.oneTimePayment ti =
      [Event.createPaymentDataRequest, Event.isReadyToPayCall, Event.loadPaymentData,
       Event.parseResponse, Event.setProcessing true,
       Event.makePayment (selectNonce cfg realNonce) ti.totalPrice,
       Event.invalidateQueries "billing-payments",
       Event.setMessage
         ("Payment for $" ++ jsTemplateStr ti.totalPrice ++
           " successfully submitted with Google Pay") "success" (some w),
       Event.setProcessing false] := by
    simp [gPay, tokenizePaymentDataRequest, createPaymentDataRequestStep,
          dispatchSettlement, makeOneTimePayment, hkey, hc1, hr1, hl1, hp1, hm1]
  have h2 : gPay cfg (some ()) envErr Action.oneTimePayment ti =
      [Event.createPaymentDataRequest, Event.isReadyToPayCall, Event.loadPaymentData,
       Event.parseResponse, Event.setProcessing true,
       Event.makePayment (selectNonce cfg realNonce2) ti.totalPrice,
       Event.reportException "Unable to complete Google Pay payment",
       Event.setMessage "Unable to complete Google Pay payment" "error" none,
       Event.setProcessing false] := by
    simp [gPay, tokenizePaymentDataRequest, createPaymentDataRequestStep,
          dispatchSettlement, makeOneTimePayment, hc2, hr2, hl2, hp2, hm2]
  refine ⟨h1, ?_, ?_, ?_, ?_⟩ <;> first
    | (rw [h1]; rfl)
    | (rw [h2]; rfl)

theorem one_time_invalidation_after_charge_witness :
    countEvents (isInvalidateKey "billing-payments")
      (gPay cfgProd (some ()) envAllOk Action.oneTimePayment
        { totalPrice := some "10.00" }) = 1 ∧
    countEvents isInvalidate
      (gPay cfgProd (some ()) envChargeFails Action.oneTimePayment
        { totalPrice := some "10.00" }) = 0 := by
  have h := one_time_invalidation_after_charge cfgProd { totalPrice := some "10.00" }
    envAllOk envChargeFails "real-nonce-123" "real-nonce-123"
    [{ title := "warning-title", detail := "warning-detail" }]
    { statusCode := none, message := "Internal server error" }
    rfl rfl rfl rfl rfl rfl rfl rfl rfl rfl
  exact ⟨h.2.1, h.2.2.2.2⟩

/-- C5: a one-time payment of `$10.00` in which the provider flow and the
backend charge both succeed calls `setMessage` exactly once, with the message
"Payment for $10.00 successfully submitted with Google Pay", severity
"success", and the warnings returned by the endpoint. -/
theorem one_time_success_message (cfg : Config) (env : ProviderEnv)
    (ti : TransactionInfo) (realNonce : String) (w : List APIWarning)
    (hprice : ti.totalPrice = some "10.00")
    (hcreate : env.createPaymentDataRequest = Except.ok ())
    (hready : env.isReadyToPay = Except.ok true)
    (hload : env.loadPaymentData = Except.ok ())
    (hparse : env.parseResponse = Except.ok realNonce)
    (hcharge : env.makePayment = Except.ok w) :
    countEvents isSetMessage (gPay cfg (some ()) env Action.oneTimePayment ti) = 1 ∧
    Event.setMessage "Payment for $10.00 successfully submitted with Google Pay"
        "success" (some w) ∈ gPay cfg (some ()) env Action.oneTimePayment ti := by
  have hmsg : "Payment for $" ++ jsTemplateStr ti.totalPrice ++
      " successfully submitted with Google Pay" =
      "Payment for $10.00 successfully submitted with Google Pay" := by
    rw [hprice]
    rfl
  have h : gPay cfg (some ()) env Action.oneTimePayment ti =
      [Event.createPaymentDataRequest, Event.isReadyToPayCall, Event.loadPaymentData,
       Event.parseResponse, Event.setProcessing true,
       Event.makePayment (selectNonce cfg realNonce) ti.totalPrice,
       Event.invalidateQueries (accountBillingKey ++ "-payments"),
       Event.setMessage "Payment for $10.00 successfully submitted with Google Pay"
         "success" (some w),
       Event.setProcessing false] := by
    simp [gPay, tokenizePaymentDataRequest, createPaymentDataRequestStep,
          dispatchSettlement, makeOneTimePayment, hmsg,
          hcreate, hready, hload, hparse, hcharge]
  rw [h]
  exact ⟨rfl, by simp⟩

theorem one_time_success_message_witness :
    countEvents isSetMessage
      (gPay cfgProd (some ()) envAllOk Action.oneTimePayment
        { totalPrice := some "10.00" }) = 1 ∧
    Event.setMessage "Payment for $10.00 successfully submitted with Google Pay"
        "success" (some [{ title := "warning-title", detail := "warning-detail" }]) ∈
      gPay cfgProd (some ()) envAllOk Action.oneTimePayment
        { totalPrice := some "10.00" } :=
  one_time_success_message cfgProd envAllOk { totalPrice := some "10.00" }
    "real-nonce-123" [{ title := "warning-title", detail := "warning-detail" }]
    rfl rfl rfl rfl rfl rfl

/-- C6: a one-time payment in which the provider flow succeeds but the backend
charge fails calls `setMessage` with "Unable to complete Google Pay payment"
and severity "error", reports the failure to the exception tracker, invalidates
no cache key, and makes exactly one backend call (no retry). -/
theorem one_time_failure_handling (cfg : Config) (env : ProviderEnv)
    (ti : TransactionInfo) (realNonce : String) (e : JsError)
    (hcreate : env.createPaymentDataRequest = Except.ok ())
    (hready : env.isReadyToPay = Except.ok true)
    (hload : env.loadPaymentData = Except.ok ())
    (hparse : env.parseResponse = Except.ok realNonce)
    (hcharge : env.makePayment = Except.error e) :
    Event.setMessage "Unable to complete Google Pay payment" "error" none ∈
      gPay cfg (some ()) env Action.oneTimePayment ti ∧
    Event.reportException "Unable to complete Google Pay payment" ∈
      gPay cfg (some ()) env Action.oneTimePayment ti ∧
    countEvents isInvalidate (gPay cfg (some ()) env Action.oneTimePayment ti) = 0 ∧
    countEvents isBackendCall (gPay cfg (some ()) env Action.oneTimePayment ti) = 1 := by
  have h : gPay cfg (some ()) env Action.oneTimePayment ti =
      [Event.createPaymentDataRequest, Event.isReadyToPayCall, Event.loadPaymentData,
       Event.parseResponse, Event.setProcessing true,
       Event.makePayment (selectNonce cfg realNonce) ti.totalPrice,
       Event.reportException "Unable to complete Google Pay payment",
       Event.setMessage "Unable to complete Google Pay payment" "error" none,
       Event.setProcessing false] := by
    simp [gPay, tokenizePaymentDataRequest, createPaymentDataRequestStep,
          dispatchSettlement, makeOneTimePayment,
          hcreate, hready, hload, hparse, hcharge]
  rw [h]
  exact ⟨by simp, by simp, rfl, rfl⟩

theorem one_time_failure_handling_witness :
    Event.setMessage "Unable to complete Google Pay payment" "error" none ∈
      gPay cfgProd (some ()) envChargeFails Action.oneTimePayment
        { totalPrice := some "10.00" } ∧
    Event.reportException "Unable to complete Google Pay payment" ∈
      gPay cfgProd (some ()) envChargeFails Action.oneTimePayment
        { totalPrice := some "10.00" } ∧
    countEvents isInvalidate
      (gPay cfgProd (some ()) envChargeFails Action.oneTimePayment
        { totalPrice := some "10.00" }) = 0 ∧
    countEvents isBackendCall
      (gPay cfgProd (some ()) envChargeFails Action.oneTimePayment
        { totalPrice := some "10.00" }) = 1 :=
  one_time_failure_handling cfgProd envChargeFails { totalPrice := some "10.00" }
    "real-nonce-123" { statusCode := none, message := "Internal server error" }
    rfl rfl rfl rfl rfl

/-- C7: a recurring-payment registration submits the nonce as the default
stored payment method.  On success the key "payment-methods-all" is
invalidated exactly once, only after the registration call (the first six
events contain no invalidation), and a success message is reported; on failure
the generic error message is shown and nothing is invalidated. -/
theorem recurring_registration (cfg : Config) (ti : TransactionInfo)
    (envOk envErr : ProviderEnv) (realNonce realNonce2 : String) (e : JsError)
    (hc1 : envOk.createPaymentDataRequest = Except.ok ())
    (hr1 : envOk.isReadyToPay = Except.ok true)
    (hl1 : envOk.loadPaymentData = Except.ok ())
    (hp1 : envOk.parseResponse = Except.ok realNonce)
    (ha1 : envOk.addPaymentMethod = Except.ok ())
    (hc2 : envErr.createPaymentDataRequest = Except.ok ())
    (hr2 : envErr.isReadyToPay = Except.ok true)
    (hl2 : envErr.loadPaymentData = Except.ok ())
    (hp2 : envErr.parseResponse = Except.ok realNonce2)
    (ha2 : envErr.addPaymentMethod = Except.error e) :
    gPay cfg (some ()) envOk Action.addRecurringPayment ti =
      [Event.createPaymentDataRequest, Event.isReadyToPayCall, Event.loadPaymentData,
       Event.parseResponse, Event.setProcessing true,
       Event.addPaymentMethod (selectNonce cfg realNonce) true,
       Event.invalidateQueries "payment-methods-all",
       Event.setMessage "Successfully added Google Pay" "success" none,
       Event.setProcessing false] ∧
    countEvents (isInvalidateKey "payment-methods-all")
      (gPay cfg (some ()) envOk Action.addRecurringPayment ti) = 1 ∧
    countEvents (isInvalidateKey "payment-methods-all")
      ((gPay cfg (some ()) envOk Action.addRecurringPayment ti).take 6) = 0 ∧
    (gPay cfg (some ()) envOk Action.addRecurringPayment ti).get? 5 =
      some (Event.addPaymentMethod (selectNonce cfg realNonce) true) ∧
    Event.setMessage "Unable to add payment method" "error" none ∈
      gPay cfg (some ()) envErr Action.addRecurringPayment ti ∧
    countEvents isInvalidate
      (gPay cfg (some ()) envErr Action.addRecurringPayment ti) = 0 := by
  have hkey : accountPaymentKey ++ "-all" = "payment-methods-all" := rfl
  have h1 : gPay cfg (some ()) envOk Action.addRecurringPayment ti =
      [Event.createPaymentDataRequest, Event.isReadyToPayCall, Event.loadPaymentData,
       Event.parseResponse, Event.setProcessing true,
       Event.addPaymentMethod (selectNonce cfg realNonce) true,
       Event.invalidateQueries "payment-methods-all",
       Event.setMessage "Successfully added Google Pay" "success" none,
       Event.setProcessing false] := by
    simp [gPay, tokenizePaymentDataRequest, createPaymentDataRequestStep,
          dispatchSettlement, addRecurringPayment, hkey, hc1, hr1, hl1, hp1, ha1]
  have h2 : gPay cfg (some ()) envErr Action.addRecurringPayment ti =
      [Event.createPaymentDataRequest, Event.isReadyToPayCall, Event.loadPaymentData,
       Event.parseResponse, Event.setProcessing true,
       Event.addPaymentMethod (selectNonce cfg realNonce2) true,
       Event.reportException "Unable to add payment method",
       Event.setMessage "Unable to add payment method" "error" none,
       Event.setProcessing false] := by
    simp [gPay, tokenizePaymentDataRequest, createPaymentDataRequestStep,
          dispatchSettlement, addRecurringPayment, hc2, hr2, hl2, hp2, ha2]
  refine ⟨h1, ?_, ?_, ?_, ?_, ?_⟩
  · rw [h1]; rfl
  · rw [h1]; rfl
  · rw [h1]; rfl
  · rw [h2]; simp
  · rw [h2]; rfl

theorem recurring_registration_witness :
    countEvents (isInvalidateKey "payment-methods-all")
      (gPay cfgProd (some ()) envAllOk Action.addRecurringPayment
        { totalPrice := none }) = 1 ∧
    Event.setMessage "Unable to add payment method" "error" none ∈
      gPay cfgProd (some ()) envAddFails Action.addRecurringPayment
        { totalPrice := none } ∧
    countEvents isInvalidate
      (gPay cfgProd (some ()) envAddFails Action.addRecurringPayment
        { totalPrice := none }) = 0 := by
  have h := recurring_registration cfgProd { totalPrice := none }
    envAllOk envAddFails "real-nonce-123" "real-nonce-123"
    { statusCode := none, message := "Internal server error" }
    rfl rfl rfl rfl rfl rfl rfl rfl rfl rfl
  exact ⟨h.2.1, h.2.2.2.2.1, h.2.2.2.2.2⟩

/-- C8: if either awaited step of `initGooglePaymentInstance` fails, the error
is reported and the call returns `{error: true}` with the module slot
untouched — in particular a never-initialized adapter stays uninitialized, and
tokenization with an uninitialized adapter always rejects.  When both steps
succeed, the created instance is stored in the module slot and `{error: false}`
is returned. -/
theorem init_error_handling (envF1 envF2 envGood : InitEnv)
    (st1 st2 : ModuleState) (e1 e2 : JsError)
    (h1 : envF1.clientCreate = Except.error e1)
    (h2a : envF2.clientCreate = Except.ok ())
    (h2b : envF2.googlePaymentCreate = Except.error e2)
    (h3a : envGood.clientCreate = Except.ok ())
    (h3b : envGood.googlePaymentCreate = Except.ok ()) :
    initGooglePaymentInstance envF1 st1 =
      ([Event.clientCreate, Event.reportException "Error initializing Google Pay."],
       st1, { error := true }) ∧
    initGooglePaymentInstance envF2 st2 =
      ([Event.clientCreate, Event.googlePaymentCreate,
        Event.reportException "Error initializing Google Pay."],
       st2, { error := true }) ∧
    initGooglePaymentInstance envGood none =
      ([Event.clientCreate, Event.googlePaymentCreate], some (), { error := false }) ∧
    (∀ (cfg : Config) (penv : ProviderEnv),
      (tokenizePaymentDataRequest cfg none penv).2 =
        Except.error { statusCode := none, message := "Unable to open Google Pay." }) := by
  refine ⟨?_, ?_, ?_, fun cfg penv => rfl⟩
  · simp [initGooglePaymentInstance, h1]
  · simp [initGooglePaymentInstance, h2a, h2b]
  · simp [initGooglePaymentInstance, h3a, h3b]

theorem init_error_handling_witness :
    initGooglePaymentInstance
        { clientCreate := Except.error { statusCode := none, message := "network error" }
          googlePaymentCreate := Except.ok () } none =
      ([Event.clientCreate, Event.reportException "Error initializing Google Pay."],
       none, { error := true }) ∧
    initGooglePaymentInstance
        { clientCreate := Except.ok ()
          googlePaymentCreate :=
            Except.error { statusCode := none, message := "unsupported version" } } none =
      ([Event.clientCreate, Event.googlePaymentCreate,
        Event.reportException "Error initializing Google Pay."],
       none, { error := true }) ∧
    initGooglePaymentInstance
        { clientCreate := Except.ok (), googlePaymentCreate := Except.ok () } none =
      ([Event.clientCreate, Event.googlePaymentCreate], some (), { error := false }) := by
  have h := init_error_handling
    { clientCreate := Except.error { statusCode := none, message := "network error" }
      googlePaymentCreate := Except.ok () }
    { clientCreate := Except.ok ()
      googlePaymentCreate :=
        Except.error { statusCode := none, message := "unsupported version" } }
    { clientCreate := Except.ok (), googlePaymentCreate := Except.ok () }
    none none
    { statusCode := none, message := "network error" }
    { statusCode := none, message := "unsupported version" }
    rfl rfl rfl rfl rfl
  exact ⟨h.1, h.2.1, h.2.2.1⟩

/-- C10: `setProcessing` is driven exclusively by tokenization success.  When
tokenization yields a nonce, the run is the tokenization trace, then
`setProcessing(true)`, then the settlement dispatch (which makes exactly one
backend call and never touches `setProcessing`), then `setProcessing(false)`
— two `setProcessing` calls in total.  When tokenization rejects,
`setProcessing` is never called. -/
theorem setProcessing_iff_tokenize_success (cfg cfg2 : Config)
    (instOk instErr : ModuleState) (envOk envErr : ProviderEnv)
    (action action2 : Action) (ti ti2 : TransactionInfo)
    (nonce : String) (e : JsError)
    (htokOk : (tokenizePaymentDataRequest cfg instOk envOk).2 = Except.ok nonce)
    (htokErr : (tokenizePaymentDataRequest cfg2 instErr envErr).2 = Except.error e) :
    gPay cfg instOk envOk action ti =
      (tokenizePaymentDataRequest cfg instOk envOk).1 ++ [Event.setProcessing true] ++
        dispatchSettlement envOk action ti nonce ++ [Event.setProcessing false] ∧
    countEvents isSetProcessing (tokenizePaymentDataRequest cfg instOk envOk).1 = 0 ∧
    countEvents isSetProcessing (dispatchSettlement envOk action ti nonce) = 0 ∧
    countEvents isBackendCall (dispatchSettlement envOk action ti nonce) = 1 ∧
    countEvents isSetProcessing (gPay cfg instOk envOk action ti) = 2 ∧
    countEvents isSetProcessing (gPay cfg2 instErr envErr action2 ti2) = 0 := by
  have hg : gPay cfg instOk envOk action ti =
      (tokenizePaymentDataRequest cfg instOk envOk).1 ++ [Event.setProcessing true] ++
        dispatchSettlement envOk action ti nonce ++ [Event.setProcessing false] := by
    simp [gPay, htokOk]
  have htp := (tokenize_trace_pure cfg instOk envOk).2.2.2
  have hdp := (dispatch_trace_events envOk action ti nonce).1
  have hdb := (dispatch_trace_events envOk action ti nonce).2
  have hcount : countEvents isSetProcessing (gPay cfg instOk envOk action ti) = 2 := by
    rw [hg, countEvents_append, countEvents_append, countEvents_append, htp, hdp]
    rfl
  have herr : countEvents isSetProcessing (gPay cfg2 instErr envErr action2 ti2) = 0 := by
    have htp2 := (tokenize_trace_pure cfg2 instErr envErr).2.2.2
    by_cases hc : e.statusCode = some "CANCELED"
    · have hge : gPay cfg2 instErr envErr action2 ti2 =
          (tokenizePaymentDataRequest cfg2 instErr envErr).1 := by
        simp [gPay, htokErr, hc]
      rw [hge]; exact htp2
    · have hge : gPay cfg2 instErr envErr action2 ti2 =
          (tokenizePaymentDataRequest cfg2 instErr envErr).1 ++
            [Event.setMessage e.message "error" none] := by
        simp [gPay, htokErr, hc]
      rw [hge, countEvents_append, htp2]; rfl
  exact ⟨hg, htp, hdp, hdb, hcount, herr⟩

theorem setProcessing_iff_tokenize_success_witness :
    countEvents isSetProcessing
      (gPay cfgProd (some ()) envAllOk Action.oneTimePayment
        { totalPrice := some "10.00" }) = 2 ∧
    countEvents isSetProcessing
      (gPay cfgProd (some ()) envCanceled Action.oneTimePayment
        { totalPrice := some "10.00" }) = 0 := by
  have h := setProcessing_iff_tokenize_success cfgProd cfgProd
    (some ()) (some ()) envAllOk envCanceled
    Action.oneTimePayment Action.oneTimePayment
    { totalPrice := some "10.00" } { totalPrice := some "10.00" }
    "real-nonce-123"
    { statusCode := some "CANCELED", message := "User closed the Payment Request UI." }
    rfl rfl
  exact ⟨h.2.2.2.2.1, h.2.2.2.2.2⟩

end GooglePay
